import Mathlib

/-!
Verification of `tensorflow_data_validation/utils/validation_lib.py`,
the convenience function `validate_tfexamples_in_tfrecord`.

The function is integration glue: it checks that the configuration
carries a schema, resolves an output path (synthesizing one under a
fresh temporary directory when the caller gives none), ensures the
output's parent directory exists, runs a five-stage Beam pipeline
(read, decode, detect anomalies, generate sliced statistics, write),
and reloads the written statistics file as the return value.

The embedding below models the function by explicit state passing over
a small filesystem model.  External collaborators (the Beam runner, the
decoder, the anomaly detector) are parameters of the model (a `World`);
the statistics aggregator, which lives in this repository but outside
the provided sources, is modelled from the specification.
-/

deriving instance DecidableEq for Except

namespace ValidationLib

/-- A path component.  Caller-supplied components are strings; the
component produced by `tempfile.mkdtemp` is modelled by a dedicated
constructor carrying the process-local temp counter, reflecting that
the operating system hands out a name distinct from every existing
one. -/
inductive Name where
  | str (s : String)
  | temp (n : Nat)
deriving DecidableEq, Repr

/-- A filesystem path, as the list of its components (as produced by
splitting on the separator used by `os.path.join`/`os.path.dirname`). -/
abbrev Path := List Name

/-- The model of `os.path.join(dir, file)`. -/
def pathJoin (dir : Path) (file : String) : Path := dir ++ [Name.str file]

/-- The model of `os.path.dirname`: drop the final component. -/
def dirname (p : Path) : Path := p.dropLast

/-- A schema, opaque to this layer (`stats_options.schema`). -/
structure Schema where
  contents : String
deriving DecidableEq, Repr

/-- The fields of `tfdv.StatsOptions` that this layer can observe: the
schema, plus the remaining options which the glue passes through
opaquely. -/
structure StatsOptions where
  schema : Option Schema
  otherOptions : String
deriving DecidableEq, Repr

/-- An anomaly reason: a categorical label naming a schema violation. -/
abbrev AnomalyReason := String

/-- A raw (undecoded) record read from the record source. -/
abbrev RawRecord := Nat

/-- A decoded example. -/
abbrev Example := Nat

/-- One slice of the statistics summary: its name and the number of
examples aggregated into it. -/
structure Slice where
  sliceName : String
  exampleCount : Nat
deriving DecidableEq, Repr

/-- The `DatasetFeatureStatisticsList` proto: a statistics summary,
one dataset (slice) per entry. -/
structure StatsSummary where
  slices : List Slice
deriving DecidableEq, Repr

/-- Errors arising during pipeline execution (I/O, decode, engine). -/
inductive PipelineError where
  | ioError (msg : String)
  | decodeError (msg : String)
  | engineError (msg : String)
deriving DecidableEq, Repr

/-- Errors surfaced by `validate_tfexamples_in_tfrecord`: the
synchronous configuration `ValueError`, or a propagated pipeline
error. -/
inductive ValidationError where
  | valueError (msg : String)
  | pipelineError (e : PipelineError)
deriving DecidableEq, Repr

/-- The filesystem state visible to the function: the set of existing
directories, the files (each a list of serialized records), and the
process-local counter from which `mkdtemp` derives fresh names. -/
structure FileSystem where
  dirs : List Path
  files : List (Path × List StatsSummary)
  tempCounter : Nat
deriving DecidableEq, Repr

/-- Find the records of the file at `p` among directory entries. -/
def findEntry : List (Path × List StatsSummary) → Path → Option (List StatsSummary)
  | [], _ => none
  | e :: es, p => if e.1 = p then some e.2 else findEntry es p

/-- Remove the entry for the file at `p`, if any. -/
def removeEntry : List (Path × List StatsSummary) → Path → List (Path × List StatsSummary)
  | [], _ => []
  | e :: es, p => if e.1 = p then es else e :: removeEntry es p

/-- Read a file's records, `none` when the file does not exist. -/
def getFile (fs : FileSystem) (p : Path) : Option (List StatsSummary) :=
  findEntry fs.files p

/-- Overwrite (or create) the file at `p` with the given records. -/
def setFile (fs : FileSystem) (p : Path) (recs : List StatsSummary) :
    FileSystem :=
  { fs with files := (p, recs) :: removeEntry fs.files p }

/-- Does a directory exist (`tf.gfile.Exists`)? -/
def dirExists (fs : FileSystem) (p : Path) : Bool := p ∈ fs.dirs

/-- The model of `tf.gfile.MakeDirs`: create the directory and every
missing ancestor (every prefix of the path). -/
def makeDirs (fs : FileSystem) (p : Path) : FileSystem :=
  { fs with dirs := (List.range (p.length + 1)).map (fun k => p.take k)
      ++ fs.dirs }

/-- The model of `tempfile.mkdtemp`: create and return a directory
with a fresh operating-system-chosen name, advancing the counter. -/
def mkdtemp (fs : FileSystem) : Path × FileSystem :=
  ([Name.temp fs.tempCounter],
   { fs with dirs := [Name.temp fs.tempCounter] :: fs.dirs,
             tempCounter := fs.tempCounter + 1 })

/-- Lines 79-80 of `validation_lib.py`: use the caller's output path,
or synthesize `os.path.join(tempfile.mkdtemp(), 'anomaly_stats.tfrecord')`
when it is `None`. -/
def resolveOutputPath (fs : FileSystem) (output_path : Option Path) :
    Path × FileSystem :=
  match output_path with
  | some p => (p, fs)
  | none =>
      (pathJoin (mkdtemp fs).1 "anomaly_stats.tfrecord", (mkdtemp fs).2)

/-- Lines 81-83 of `validation_lib.py`: ensure the parent directory of
the output path exists, creating it (with ancestors) only when the
existence check fails. -/
def ensureOutputDir (fs : FileSystem) (output_dir_path : Path) :
    FileSystem :=
  if dirExists fs output_dir_path then fs else makeDirs fs output_dir_path

/-- One stage of the Beam pipeline as assembled by the function.  The
aggregation stage records its `is_slicing_enabled` flag; the write
stage records its destination path and `shard_name_template`. -/
inductive Stage where
  | readData
  | decodeData
  | detectAnomalies
  | generateSummaryStatistics (isSlicingEnabled : Bool)
  | writeStatsOutput (path : Path) (shardNameTemplate : String)
deriving DecidableEq, Repr

/-- Lines 85-100 of `validation_lib.py`: the five pipeline stages, in
the order they are chained with `|`. -/
def pipelineStages (output_path : Path) : List Stage :=
  [Stage.readData,
   Stage.decodeData,
   Stage.detectAnomalies,
   Stage.generateSummaryStatistics true,
   Stage.writeStatsOutput output_path ""]

/-- An example paired with the anomaly reasons the detector tagged it
with (empty when the example is not anomalous). -/
structure TaggedExample where
  ex : Example
  reasons : List AnomalyReason
deriving DecidableEq, Repr

/-- The value flowing between pipeline stages (the current
PCollection), starting from the pipeline root. -/
inductive PColl where
  | root
  | raw (rs : List RawRecord)
  | examples (es : List Example)
  | tagged (ts : List TaggedExample)
  | summaries (ss : List StatsSummary)
  | written
deriving DecidableEq, Repr

/-- The external collaborators and their behaviour on this run: what
the record source yields at the data location, how each raw record
decodes, which anomaly reasons the detector assigns under the given
options, and whether the execution engine fails at a given stage. -/
structure World where
  rawRecords : String → Except PipelineError (List RawRecord)
  decode : RawRecord → Except PipelineError Example
  detect : StatsOptions → Example → List AnomalyReason
  engineFailure : Stage → Option PipelineError

/-- The name of the overall slice holding every example. -/
def allExamplesSliceName : String := "All Examples"

/-- Append a reason to the accumulator unless already present. -/
def addReason (acc : List AnomalyReason) (r : AnomalyReason) :
    List AnomalyReason :=
  if r ∈ acc then acc else acc ++ [r]

/-- The distinct anomaly reasons occurring among the tagged examples,
in order of first appearance. -/
def collectReasons (ts : List TaggedExample) : List AnomalyReason :=
  ts.foldl (fun acc t => t.reasons.foldl addReason acc) []

/-- The number of examples exhibiting reason `r`. -/
def reasonCount (r : AnomalyReason) (ts : List TaggedExample) : Nat :=
  (ts.filter (fun t => r ∈ t.reasons)).length

/-- Modelled from the spec: `stats_impl.GenerateSlicedStatisticsImpl`
(together with the slice keys produced by
`validation_api.IdentifyAnomalousExamples`) is not among the provided
sources.  Per the specification, the aggregator produces a sliced
statistics summary: one overall slice counting every example, plus —
when slicing is enabled — one slice per distinct anomaly reason
observed, counting the examples exhibiting that reason. -/
def generateSlicedStatistics (isSlicingEnabled : Bool)
    (ts : List TaggedExample) : StatsSummary :=
  { slices :=
      { sliceName := allExamplesSliceName, exampleCount := ts.length } ::
      (if isSlicingEnabled then
        (collectReasons ts).map
          (fun r => { sliceName := r, exampleCount := reasonCount r ts })
      else []) }

/-- Decode every raw record, propagating the first decode failure. -/
def decodeAll (w : World) : List RawRecord → Except PipelineError (List Example)
  | [] => Except.ok []
  | r :: rs =>
      match w.decode r with
      | Except.error e => Except.error e
      | Except.ok ex =>
          match decodeAll w rs with
          | Except.error e => Except.error e
          | Except.ok exs => Except.ok (ex :: exs)

/-- Run one pipeline stage on the current collection and filesystem.
A failure of the execution engine at this stage, or a failure reported
by the stage's collaborator, aborts the run with that error. -/
def runStage (w : World) (data_location : String) (so : StatsOptions)
    (st : Stage) (acc : PColl × FileSystem) :
    Except PipelineError (PColl × FileSystem) :=
  match w.engineFailure st with
  | some e => Except.error e
  | none =>
    match st, acc.1 with
    | Stage.readData, PColl.root =>
        match w.rawRecords data_location with
        | Except.error e => Except.error e
        | Except.ok rs => Except.ok (PColl.raw rs, acc.2)
    | Stage.decodeData, PColl.raw rs =>
        match decodeAll w rs with
        | Except.error e => Except.error e
        | Except.ok es => Except.ok (PColl.examples es, acc.2)
    | Stage.detectAnomalies, PColl.examples es =>
        Except.ok (PColl.tagged
          (es.map (fun e => { ex := e, reasons := w.detect so e })), acc.2)
    | Stage.generateSummaryStatistics b, PColl.tagged ts =>
        Except.ok (PColl.summaries [generateSlicedStatistics b ts], acc.2)
    | Stage.writeStatsOutput p _template, PColl.summaries ss =>
        Except.ok (PColl.written, setFile acc.2 p ss)
    | _, _ => Except.error (PipelineError.engineError "stage type mismatch")

/-- Run a list of stages in order, threading the collection and the
filesystem; the first failing stage aborts the whole run. -/
def runStages (w : World) (data_location : String) (so : StatsOptions) :
    List Stage → PColl × FileSystem → Except PipelineError (PColl × FileSystem)
  | [], acc => Except.ok acc
  | st :: sts, acc =>
      match runStage w data_location so st acc with
      | Except.error e => Except.error e
      | Except.ok acc1 => runStages w data_location so sts acc1

/-- The `with beam.Pipeline(...)` block: construct the five stages for
the resolved output path and run them from the pipeline root. -/
def runPipeline (w : World) (data_location : String) (so : StatsOptions)
    (output_path : Path) (fs : FileSystem) :
    Except PipelineError FileSystem :=
  match runStages w data_location so (pipelineStages output_path)
      (PColl.root, fs) with
  | Except.error e => Except.error e
  | Except.ok acc => Except.ok acc.2

/-- Modelled from the spec: `stats_gen_lib.load_statistics` is not
among the provided sources.  Per the specification and the function's
docstring, it reads back the single serialized statistics record from
the output file at `p`. -/
def load_statistics (fs : FileSystem) (p : Path) :
    Except PipelineError StatsSummary :=
  match getFile fs p with
  | some (s :: _) => Except.ok s
  | _ => Except.error (PipelineError.ioError "unable to load statistics")

/-- The message of the `ValueError` raised on a missing schema. -/
def schemaErrMsg : String :=
  "The specified stats_options must include a schema."

/-- The embedding of `validate_tfexamples_in_tfrecord` (lines 37-102
of `validation_lib.py`).  The result pairs the returned value (or the
raised error) with the final filesystem state. -/
def validate_tfexamples_in_tfrecord (w : World) (fs : FileSystem)
    (data_location : String) (stats_options : StatsOptions)
    (output_path : Option Path) :
    Except ValidationError StatsSummary × FileSystem :=
  match stats_options.schema with
  | none => (Except.error (ValidationError.valueError schemaErrMsg), fs)
  | some _ =>
      let op := (resolveOutputPath fs output_path).1
      let output_dir_path := dirname op
      let fs2 := ensureOutputDir (resolveOutputPath fs output_path).2 output_dir_path
      match runPipeline w data_location stats_options op fs2 with
      | Except.error e =>
          (Except.error (ValidationError.pipelineError e), fs2)
      | Except.ok fs3 =>
          match load_statistics fs3 op with
          | Except.error e =>
              (Except.error (ValidationError.pipelineError e), fs3)
          | Except.ok s => (Except.ok s, fs3)

/-- The output path the call resolves to: the caller's path, or the
synthesized temporary one. -/
def resolvedPath (fs : FileSystem) (output_path : Option Path) : Path :=
  (resolveOutputPath fs output_path).1

/-! Helper lemmas shared by the claim theorems. -/

theorem getFile_setFile_same (fs : FileSystem) (p : Path)
    (recs : List StatsSummary) : getFile (setFile fs p recs) p = some recs := by
  simp [getFile, setFile, findEntry]

theorem findEntry_removeEntry_ne (l : List (Path × List StatsSummary))
    (p q : Path) (h : q ≠ p) : findEntry (removeEntry l p) q = findEntry l q := by
  induction l with
  | nil => rfl
  | cons e es ih =>
      by_cases he : e.1 = p
      · have hne : ¬ (e.1 = q) := fun hq => h (hq ▸ he)
        simp only [removeEntry, if_pos he, findEntry, if_neg hne]
      · simp only [removeEntry, if_neg he, findEntry]
        by_cases hq : e.1 = q
        · rw [if_pos hq, if_pos hq]
        · rw [if_neg hq, if_neg hq]
          exact ih

theorem getFile_setFile_ne (fs : FileSystem) (p q : Path)
    (recs : List StatsSummary) (h : q ≠ p) :
    getFile (setFile fs p recs) q = getFile fs q := by
  have hne : ¬ (((p, recs) : Path × List StatsSummary).1 = q) := fun hq => h hq.symm
  simp only [getFile, setFile, findEntry, if_neg hne]
  exact findEntry_removeEntry_ne fs.files p q h

theorem runStages_cons_ok (w : World) (dl : String) (so : StatsOptions)
    (st : Stage) (sts : List Stage) (acc acc2 : PColl × FileSystem)
    (h : runStages w dl so (st :: sts) acc = Except.ok acc2) :
    ∃ acc1, runStage w dl so st acc = Except.ok acc1 ∧
      runStages w dl so sts acc1 = Except.ok acc2 := by
  cases hst : runStage w dl so st acc with
  | error e =>
      simp only [runStages, hst] at h
      exact Except.noConfusion h
  | ok acc1 =>
      simp only [runStages, hst] at h
      exact ⟨acc1, rfl, h⟩

theorem runStage_read_ok (w : World) (dl : String) (so : StatsOptions)
    (fs : FileSystem) (acc1 : PColl × FileSystem)
    (h : runStage w dl so Stage.readData (PColl.root, fs) = Except.ok acc1) :
    ∃ rs, acc1 = (PColl.raw rs, fs) := by
  simp only [runStage] at h
  split at h
  · exact Except.noConfusion h
  · split at h
    · exact Except.noConfusion h
    · exact ⟨_, (Except.ok.inj h).symm⟩

theorem runStage_decode_ok (w : World) (dl : String) (so : StatsOptions)
    (rs : List RawRecord) (fs : FileSystem) (acc1 : PColl × FileSystem)
    (h : runStage w dl so Stage.decodeData (PColl.raw rs, fs) = Except.ok acc1) :
    ∃ es, acc1 = (PColl.examples es, fs) := by
  simp only [runStage] at h
  split at h
  · exact Except.noConfusion h
  · split at h
    · exact Except.noConfusion h
    · exact ⟨_, (Except.ok.inj h).symm⟩

theorem runStage_detect_ok (w : World) (dl : String) (so : StatsOptions)
    (es : List Example) (fs : FileSystem) (acc1 : PColl × FileSystem)
    (h : runStage w dl so Stage.detectAnomalies (PColl.examples es, fs) =
      Except.ok acc1) :
    acc1 = (PColl.tagged
      (es.map (fun e => { ex := e, reasons := w.detect so e })), fs) := by
  simp only [runStage] at h
  split at h
  · exact Except.noConfusion h
  · exact (Except.ok.inj h).symm

theorem runStage_gen_ok (w : World) (dl : String) (so : StatsOptions)
    (b : Bool) (ts : List TaggedExample) (fs : FileSystem)
    (acc1 : PColl × FileSystem)
    (h : runStage w dl so (Stage.generateSummaryStatistics b)
      (PColl.tagged ts, fs) = Except.ok acc1) :
    acc1 = (PColl.summaries [generateSlicedStatistics b ts], fs) := by
  simp only [runStage] at h
  split at h
  · exact Except.noConfusion h
  · exact (Except.ok.inj h).symm

theorem runStage_write_ok (w : World) (dl : String) (so : StatsOptions)
    (p : Path) (tmpl : String) (ss : List StatsSummary) (fs : FileSystem)
    (acc1 : PColl × FileSystem)
    (h : runStage w dl so (Stage.writeStatsOutput p tmpl)
      (PColl.summaries ss, fs) = Except.ok acc1) :
    acc1 = (PColl.written, setFile fs p ss) := by
  simp only [runStage] at h
  split at h
  · exact Except.noConfusion h
  · exact (Except.ok.inj h).symm

/-- A successful pipeline run writes exactly one file: the sliced
statistics summary (slicing enabled) of the detector-tagged decoded
examples, at the output path; nothing else changes. -/
theorem runPipeline_success (w : World) (dl : String) (so : StatsOptions)
    (p : Path) (fs fs3 : FileSystem)
    (h : runPipeline w dl so p fs = Except.ok fs3) :
    ∃ ts : List TaggedExample,
      fs3 = setFile fs p [generateSlicedStatistics true ts] := by
  unfold runPipeline at h
  cases hr : runStages w dl so (pipelineStages p) (PColl.root, fs) with
  | error e => rw [hr] at h; exact Except.noConfusion h
  | ok acc =>
      rw [hr] at h
      have hacc : acc.2 = fs3 := Except.ok.inj h
      simp only [pipelineStages] at hr
      obtain ⟨a1, h1, hr⟩ := runStages_cons_ok w dl so _ _ _ _ hr
      obtain ⟨rs, ha1⟩ := runStage_read_ok w dl so fs a1 h1
      subst ha1
      obtain ⟨a2, h2, hr⟩ := runStages_cons_ok w dl so _ _ _ _ hr
      obtain ⟨es, ha2⟩ := runStage_decode_ok w dl so rs fs a2 h2
      subst ha2
      obtain ⟨a3, h3, hr⟩ := runStages_cons_ok w dl so _ _ _ _ hr
      have ha3 := runStage_detect_ok w dl so es fs a3 h3
      subst ha3
      obtain ⟨a4, h4, hr⟩ := runStages_cons_ok w dl so _ _ _ _ hr
      have ha4 := runStage_gen_ok w dl so true _ fs a4 h4
      subst ha4
      obtain ⟨a5, h5, hr⟩ := runStages_cons_ok w dl so _ _ _ _ hr
      have ha5 := runStage_write_ok w dl so p "" _ fs a5 h5
      subst ha5
      have hfin : (PColl.written, setFile fs p
          [generateSlicedStatistics true
            (es.map (fun e => { ex := e, reasons := w.detect so e }))]) = acc :=
        Except.ok.inj hr
      refine ⟨es.map (fun e => { ex := e, reasons := w.detect so e }), ?_⟩
      rw [← hacc, ← hfin]

theorem load_statistics_setFile (fs : FileSystem) (p : Path)
    (s : StatsSummary) :
    load_statistics (setFile fs p [s]) p = Except.ok s := by
  simp only [load_statistics, getFile_setFile_same]

/-- Success characterization of the whole call: the final filesystem
is the initial one with the output directory ensured and a single-file
write of the returned summary at the resolved output path. -/
theorem validate_success (w : World) (fs : FileSystem) (dl : String)
    (so : StatsOptions) (op : Option Path) (s : StatsSummary)
    (fs' : FileSystem)
    (h : validate_tfexamples_in_tfrecord w fs dl so op = (Except.ok s, fs')) :
    fs' = setFile (ensureOutputDir (resolveOutputPath fs op).2
        (dirname (resolvedPath fs op))) (resolvedPath fs op) [s] := by
  unfold validate_tfexamples_in_tfrecord at h
  cases hs : so.schema with
  | none => rw [hs] at h; simp at h
  | some sch =>
      rw [hs] at h
      dsimp only at h
      cases hp : runPipeline w dl so (resolveOutputPath fs op).1
          (ensureOutputDir (resolveOutputPath fs op).2
            (dirname (resolveOutputPath fs op).1)) with
      | error e => rw [hp] at h; simp at h
      | ok fs3 =>
          rw [hp] at h
          dsimp only at h
          obtain ⟨ts, hts⟩ := runPipeline_success w dl so _ _ _ hp
          subst hts
          rw [load_statistics_setFile] at h
          dsimp only at h
          have h1 : Except.ok (generateSlicedStatistics true ts) =
              (Except.ok s : Except ValidationError StatsSummary) :=
            congrArg Prod.fst h
          have h2 := congrArg Prod.snd h
          dsimp only at h2
          rw [← h2, Except.ok.inj h1]
          rfl

/-! Concrete fixtures used by the witnesses. -/

/-- An initial filesystem: only the root directory, no files. -/
def fs0 : FileSystem := { dirs := [[]], files := [], tempCounter := 0 }

/-- A concrete schema value. -/
def sch0 : Schema := { contents := "feature x required" }

/-- Options carrying a schema. -/
def soWith : StatsOptions := { schema := some sch0, otherOptions := "" }

/-- Options whose schema is absent. -/
def soAbsent : StatsOptions := { schema := none, otherOptions := "" }

/-- Collaborators for a clean run: two records, identity decode, no
anomalies, no engine failure. -/
def okWorld : World :=
  { rawRecords := fun _ => Except.ok [0, 1],
    decode := fun r => Except.ok r,
    detect := fun _ _ => [],
    engineFailure := fun _ => none }

/-- Collaborators whose record source fails with an I/O error. -/
def failWorld : World :=
  { okWorld with
    rawRecords := fun _ => Except.error (PipelineError.ioError "read failed") }

/-- A caller-supplied output path. -/
def pOut : Path := [Name.str "out", Name.str "stats.tfrecord"]

/-- The summary the clean run produces: one overall slice of the two
examples. -/
def summary2 : StatsSummary :=
  { slices := [{ sliceName := allExamplesSliceName, exampleCount := 2 }] }

/-- The clean run's result (value and final filesystem). -/
def outRun : Except ValidationError StatsSummary × FileSystem :=
  validate_tfexamples_in_tfrecord okWorld fs0 "data" soWith (some pOut)

/-- One tagged example with no anomaly. -/
def tsClean : List TaggedExample := [{ ex := 0, reasons := [] }]

/-- Two tagged examples, one of them anomalous for a single reason. -/
def tsOneReason : List TaggedExample :=
  [{ ex := 0, reasons := [] }, { ex := 1, reasons := ["missing feature x"] }]

theorem getFile_ensureOutputDir (fs : FileSystem) (d q : Path) :
    getFile (ensureOutputDir fs d) q = getFile fs q := by
  unfold ensureOutputDir
  split
  · rfl
  · rfl

theorem getFile_resolveOutputPath (fs : FileSystem) (op : Option Path)
    (q : Path) : getFile (resolveOutputPath fs op).2 q = getFile fs q := by
  cases op <;> rfl

theorem tempCounter_setFile (fs : FileSystem) (p : Path)
    (recs : List StatsSummary) :
    (setFile fs p recs).tempCounter = fs.tempCounter := rfl

theorem tempCounter_ensureOutputDir (fs : FileSystem) (d : Path) :
    (ensureOutputDir fs d).tempCounter = fs.tempCounter := by
  unfold ensureOutputDir
  split
  · rfl
  · rfl

/-! The claims. -/

/-- C1: when `stats_options` carries no schema, the call fails with
the configuration `ValueError` synchronously, before any pipeline
construction and with no filesystem side effect: the filesystem is
returned exactly as given — no temporary directory created, no
directory made, no file written. -/
theorem C1_schema_absent_fails_fast (w : World) (fs : FileSystem)
    (dl : String) (so : StatsOptions) (op : Option Path)
    (h : so.schema = none) :
    validate_tfexamples_in_tfrecord w fs dl so op =
      (Except.error (ValidationError.valueError schemaErrMsg), fs) := by
  unfold validate_tfexamples_in_tfrecord
  rw [h]

/-- Witness for C1: a concrete absent-schema configuration fails with
the configuration error and leaves the filesystem untouched. -/
theorem C1_schema_absent_fails_fast_witness :
    soAbsent.schema = none ∧
    validate_tfexamples_in_tfrecord okWorld fs0 "data" soAbsent none =
      (Except.error (ValidationError.valueError schemaErrMsg), fs0) :=
  ⟨rfl, C1_schema_absent_fails_fast okWorld fs0 "data" soAbsent none rfl⟩

/-- C2 counterexample: at a concrete call with `output_path` absent,
the path joined under the fresh temporary directory carries the file
name `anomaly_stats.tfrecord`, not the claimed `anomaly_stats`. -/
theorem C2_default_name_counterexample :
    (resolveOutputPath fs0 none).1 =
      pathJoin (mkdtemp fs0).1 "anomaly_stats.tfrecord" ∧
    (resolveOutputPath fs0 none).1 ≠
      pathJoin (mkdtemp fs0).1 "anomaly_stats" := by
  decide

/-- C2 (amended): with `output_path` absent, the resolved output path
is the fixed file name `anomaly_stats.tfrecord` joined under a freshly
created temporary directory (the directory is newly created and the
temp counter advances), and a second such call never resolves to the
same path. -/
theorem C2_default_output_path (fs : FileSystem) :
    (resolveOutputPath fs none).1 =
      pathJoin [Name.temp fs.tempCounter] "anomaly_stats.tfrecord" ∧
    [Name.temp fs.tempCounter] ∈ (resolveOutputPath fs none).2.dirs ∧
    (resolveOutputPath fs none).2.tempCounter = fs.tempCounter + 1 ∧
    resolvedPath (resolveOutputPath fs none).2 none ≠ resolvedPath fs none := by
  refine ⟨rfl, ?_, rfl, ?_⟩
  · simp [resolveOutputPath, mkdtemp]
  · simp [resolvedPath, resolveOutputPath, mkdtemp, pathJoin]

/-- C3: on success, the returned summary equals what `load_statistics`
independently reloads from the resolved output path on the final
filesystem state. -/
theorem C3_roundtrip (w : World) (fs : FileSystem) (dl : String)
    (so : StatsOptions) (op : Option Path) (s : StatsSummary)
    (fs' : FileSystem)
    (h : validate_tfexamples_in_tfrecord w fs dl so op = (Except.ok s, fs')) :
    load_statistics fs' (resolvedPath fs op) = Except.ok s := by
  rw [validate_success w fs dl so op s fs' h]
  exact load_statistics_setFile _ _ _

/-- Witness for C3: reloading the concrete clean run's output file
yields exactly the returned summary. -/
theorem C3_roundtrip_witness :
    load_statistics outRun.2 (resolvedPath fs0 (some pOut)) =
      Except.ok summary2 :=
  C3_roundtrip okWorld fs0 "data" soWith (some pOut) summary2 outRun.2
    (by decide)

/-- C4: the constructed pipeline is exactly the five stages read,
decode, detect-anomalies, aggregate-statistics-by-slice, write, in
that fixed order, with slicing enabled in the aggregation stage. -/
theorem C4_five_stage_pipeline (p : Path) :
    pipelineStages p =
      [Stage.readData, Stage.decodeData, Stage.detectAnomalies,
       Stage.generateSummaryStatistics true,
       Stage.writeStatsOutput p ""] ∧
    (pipelineStages p).length = 5 := ⟨rfl, rfl⟩

/-- C5: on success exactly one output file is written — at the
resolved path itself, the final (write) stage carrying an empty shard
name template — holding a single serialized summary record; every
other path's content is unchanged. -/
theorem C5_single_shard_single_record (w : World) (fs : FileSystem)
    (dl : String) (so : StatsOptions) (op : Option Path)
    (s : StatsSummary) (fs' : FileSystem)
    (h : validate_tfexamples_in_tfrecord w fs dl so op = (Except.ok s, fs')) :
    getFile fs' (resolvedPath fs op) = some [s] ∧
    (pipelineStages (resolvedPath fs op)).getLast? =
      some (Stage.writeStatsOutput (resolvedPath fs op) "") ∧
    ∀ q, q ≠ resolvedPath fs op → getFile fs' q = getFile fs q := by
  have hfs := validate_success w fs dl so op s fs' h
  subst hfs
  refine ⟨getFile_setFile_same _ _ _, rfl, ?_⟩
  intro q hq
  rw [getFile_setFile_ne _ _ _ _ hq, getFile_ensureOutputDir,
    getFile_resolveOutputPath]

/-- Witness for C5: in the concrete clean run the output file holds
exactly the one summary record and an unrelated path is untouched. -/
theorem C5_single_shard_single_record_witness :
    getFile outRun.2 pOut = some [summary2] ∧
    getFile outRun.2 [Name.str "other"] = getFile fs0 [Name.str "other"] :=
  ⟨(C5_single_shard_single_record okWorld fs0 "data" soWith (some pOut)
      summary2 outRun.2 (by decide)).1,
   (C5_single_shard_single_record okWorld fs0 "data" soWith (some pOut)
      summary2 outRun.2 (by decide)).2.2 [Name.str "other"] (by decide)⟩

/-- C6: ensuring the output directory is idempotent — a no-op when the
directory already exists, the directory exists afterwards, repeating
the step changes nothing (so a second call with the same output path
cannot fail on directory re-creation), and creating a missing
directory also creates every missing ancestor (every prefix). -/
theorem C6_directory_idempotence :
    (∀ fs d, dirExists fs d = true → ensureOutputDir fs d = fs) ∧
    (∀ fs d, dirExists (ensureOutputDir fs d) d = true) ∧
    (∀ fs d, ensureOutputDir (ensureOutputDir fs d) d = ensureOutputDir fs d) ∧
    (∀ fs d k, k ≤ d.length → d.take k ∈ (makeDirs fs d).dirs) := by
  have hmem : ∀ (fs : FileSystem) (d : Path) (k : Nat), k ≤ d.length →
      d.take k ∈ (makeDirs fs d).dirs := by
    intro fs d k hk
    simp only [makeDirs]
    apply List.mem_append_left
    exact List.mem_map.mpr ⟨k, List.mem_range.mpr (Nat.lt_succ_of_le hk), rfl⟩
  have h1 : ∀ (fs : FileSystem) (d : Path), dirExists fs d = true →
      ensureOutputDir fs d = fs := by
    intro fs d h
    simp [ensureOutputDir, h]
  have h2 : ∀ (fs : FileSystem) (d : Path),
      dirExists (ensureOutputDir fs d) d = true := by
    intro fs d
    by_cases h : dirExists fs d = true
    · rw [h1 fs d h]
      exact h
    · have hd : d ∈ (makeDirs fs d).dirs := by
        have := hmem fs d d.length le_rfl
        rwa [List.take_length d] at this
      unfold ensureOutputDir
      rw [if_neg h]
      simp [dirExists, hd]
  exact ⟨h1, h2, fun fs d => h1 _ _ (h2 fs d), hmem⟩

/-- Witness for C6: a second directory-ensuring step against a
concrete already-ensured directory changes nothing, and the ancestor
prefix of a created directory exists. -/
theorem C6_directory_idempotence_witness :
    ensureOutputDir (ensureOutputDir fs0 [Name.str "out"]) [Name.str "out"] =
      ensureOutputDir fs0 [Name.str "out"] ∧
    ([Name.str "a", Name.str "b"] : Path).take 1 ∈
      (makeDirs fs0 [Name.str "a", Name.str "b"]).dirs :=
  ⟨C6_directory_idempotence.1 (ensureOutputDir fs0 [Name.str "out"])
      [Name.str "out"] (by decide),
   C6_directory_idempotence.2.2.2 fs0 [Name.str "a", Name.str "b"] 1
      (by decide)⟩

/-- C7: every pipeline-execution failure propagates to the caller
unmodified — nothing is caught, translated, or retried — and no
statistics value is surfaced: the call returns the pipeline's own
error over the pre-pipeline filesystem (no file written). -/
theorem C7_execution_error_propagation (w : World) (fs : FileSystem)
    (dl : String) (so : StatsOptions) (op : Option Path)
    (e : PipelineError) (hs : so.schema ≠ none)
    (h : runPipeline w dl so (resolvedPath fs op)
        (ensureOutputDir (resolveOutputPath fs op).2
          (dirname (resolvedPath fs op))) = Except.error e) :
    validate_tfexamples_in_tfrecord w fs dl so op =
      (Except.error (ValidationError.pipelineError e),
       ensureOutputDir (resolveOutputPath fs op).2
         (dirname (resolvedPath fs op))) := by
  simp only [resolvedPath] at h
  unfold validate_tfexamples_in_tfrecord
  cases hsch : so.schema with
  | none => exact absurd hsch hs
  | some sch =>
      dsimp only
      rw [h]
      rfl

/-- Witness for C7: a concrete failing record source surfaces its I/O
error verbatim, with no file written. -/
theorem C7_execution_error_propagation_witness :
    validate_tfexamples_in_tfrecord failWorld fs0 "data" soWith (some pOut) =
      (Except.error (ValidationError.pipelineError
        (PipelineError.ioError "read failed")),
       ensureOutputDir (resolveOutputPath fs0 (some pOut)).2
         (dirname (resolvedPath fs0 (some pOut)))) :=
  C7_execution_error_propagation failWorld fs0 "data" soWith (some pOut)
    (PipelineError.ioError "read failed") (by decide) (by decide)

theorem foldl_collect_no_anomaly (ts : List TaggedExample)
    (acc : List AnomalyReason) (h : ∀ t ∈ ts, t.reasons = []) :
    ts.foldl (fun acc t => t.reasons.foldl addReason acc) acc = acc := by
  induction ts generalizing acc with
  | nil => rfl
  | cons t ts ih =>
      rw [List.foldl_cons, h t (List.mem_cons_self t ts)]
      exact ih acc (fun t' ht' => h t' (List.mem_cons_of_mem t ht'))

theorem foldl_collect_stable (R : AnomalyReason) (ts : List TaggedExample)
    (acc : List AnomalyReason)
    (h : ∀ t ∈ ts, t.reasons = [] ∨ t.reasons = [R]) (hacc : R ∈ acc) :
    ts.foldl (fun acc t => t.reasons.foldl addReason acc) acc = acc := by
  induction ts with
  | nil => rfl
  | cons t ts ih =>
      rcases h t (List.mem_cons_self t ts) with ht | ht <;>
        rw [List.foldl_cons, ht]
      · exact ih (fun t' ht' => h t' (List.mem_cons_of_mem t ht'))
      · simp only [List.foldl_cons, List.foldl_nil, addReason, if_pos hacc]
        exact ih (fun t' ht' => h t' (List.mem_cons_of_mem t ht'))

theorem collectReasons_single (R : AnomalyReason) :
    ∀ ts : List TaggedExample,
    (∀ t ∈ ts, t.reasons = [] ∨ t.reasons = [R]) →
    (∃ t ∈ ts, t.reasons ≠ []) → collectReasons ts = [R] := by
  intro ts
  induction ts with
  | nil =>
      intro _ hex
      simp at hex
  | cons t ts ih =>
      intro h hex
      rcases h t (List.mem_cons_self t ts) with ht | ht
      · have hex' : ∃ t' ∈ ts, t'.reasons ≠ [] := by
          rcases hex with ⟨t', ht', hne⟩
          rcases List.mem_cons.mp ht' with rfl | hmem
          · exact absurd ht hne
          · exact ⟨t', hmem, hne⟩
        unfold collectReasons at ih ⊢
        rw [List.foldl_cons, ht, List.foldl_nil]
        exact ih (fun t' ht' => h t' (List.mem_cons_of_mem t ht')) hex'
      · unfold collectReasons
        rw [List.foldl_cons, ht]
        simp only [List.foldl_cons, List.foldl_nil, addReason,
          if_neg (List.not_mem_nil R), List.nil_append]
        exact foldl_collect_stable R ts [R]
          (fun t' ht' => h t' (List.mem_cons_of_mem t ht'))
          (List.mem_singleton.mpr rfl)

/-- C8: with slicing enabled (as the pipeline configures it), an input
with no anomalous record yields exactly the one global slice; an input
whose anomalous records all carry exactly the single reason `R` yields
exactly two slices — the global slice and an `R` slice whose example
count is the number of anomalous records. -/
theorem C8_slicing (ts : List TaggedExample) (R : AnomalyReason) :
    ((∀ t ∈ ts, t.reasons = []) →
      (generateSlicedStatistics true ts).slices =
        [{ sliceName := allExamplesSliceName, exampleCount := ts.length }]) ∧
    ((∀ t ∈ ts, t.reasons = [] ∨ t.reasons = [R]) →
      (∃ t ∈ ts, t.reasons ≠ []) →
      (generateSlicedStatistics true ts).slices =
        [{ sliceName := allExamplesSliceName, exampleCount := ts.length },
         { sliceName := R,
           exampleCount :=
             (ts.filter (fun t => decide (t.reasons ≠ []))).length }]) := by
  constructor
  · intro h
    have hc : collectReasons ts = [] := foldl_collect_no_anomaly ts [] h
    simp [generateSlicedStatistics, hc]
  · intro h hex
    have hc : collectReasons ts = [R] := collectReasons_single R ts h hex
    have hcount : reasonCount R ts =
        (ts.filter (fun t => decide (t.reasons ≠ []))).length := by
      unfold reasonCount
      congr 1
      apply List.filter_congr
      intro t ht
      rcases h t ht with hr | hr <;> simp [hr]
    simp [generateSlicedStatistics, hc, hcount]

/-- Witness for C8: one concrete anomaly-free input yields only the
global slice; a concrete input with one anomalous record of a single
reason yields the global slice and that reason's slice of count one. -/
theorem C8_slicing_witness :
    (generateSlicedStatistics true tsClean).slices =
      [{ sliceName := allExamplesSliceName, exampleCount := 1 }] ∧
    (generateSlicedStatistics true tsOneReason).slices =
      [{ sliceName := allExamplesSliceName, exampleCount := 2 },
       { sliceName := "missing feature x",
         exampleCount :=
           (tsOneReason.filter (fun t => decide (t.reasons ≠ []))).length }] :=
  ⟨(C8_slicing tsClean "missing feature x").1 (by decide),
   (C8_slicing tsOneReason "missing feature x").2 (by decide) (by decide)⟩

/-- C9: with a caller-supplied output path the temporary-directory
branch is never taken — the path (and filesystem) pass through
`resolveOutputPath` verbatim and the temp counter never moves — and on
success the supplied path is, unmodified, both the write destination
and the path the returned value is reloaded from. -/
theorem C9_explicit_output_path (w : World) (fs : FileSystem)
    (dl : String) (so : StatsOptions) (p : Path) :
    resolveOutputPath fs (some p) = (p, fs) ∧
    (validate_tfexamples_in_tfrecord w fs dl so (some p)).2.tempCounter =
      fs.tempCounter ∧
    (∀ s fs', validate_tfexamples_in_tfrecord w fs dl so (some p) =
        (Except.ok s, fs') →
      getFile fs' p = some [s] ∧ load_statistics fs' p = Except.ok s) := by
  refine ⟨rfl, ?_, ?_⟩
  · unfold validate_tfexamples_in_tfrecord
    cases hs : so.schema with
    | none => rfl
    | some sch =>
        simp only [resolveOutputPath]
        cases hp : runPipeline w dl so p (ensureOutputDir fs (dirname p)) with
        | error e =>
            exact tempCounter_ensureOutputDir fs (dirname p)
        | ok fs3 =>
            obtain ⟨ts, hts⟩ :=
              runPipeline_success w dl so p (ensureOutputDir fs (dirname p))
                fs3 hp
            subst hts
            dsimp only
            rw [load_statistics_setFile]
            rw [tempCounter_setFile, tempCounter_ensureOutputDir]
  · intro s fs' h
    have hfs := validate_success w fs dl so (some p) s fs' h
    subst hfs
    exact ⟨getFile_setFile_same _ _ _, load_statistics_setFile _ _ _⟩

/-- Witness for C9: the concrete clean run with a supplied path leaves
the temp counter alone and the supplied path holds the returned
summary. -/
theorem C9_explicit_output_path_witness :
    resolveOutputPath fs0 (some pOut) = (pOut, fs0) ∧
    outRun.2.tempCounter = fs0.tempCounter ∧
    getFile outRun.2 pOut = some [summary2] :=
  ⟨(C9_explicit_output_path okWorld fs0 "data" soWith pOut).1,
   (C9_explicit_output_path okWorld fs0 "data" soWith pOut).2.1,
   ((C9_explicit_output_path okWorld fs0 "data" soWith pOut).2.2 summary2
      outRun.2 (by decide)).1⟩

/-- C10: the call raises the configuration `ValueError` exactly when
`stats_options.schema` is absent; any configuration with a present
schema passes the local check, whatever the schema's contents, the
other options, the data location, or the collaborators. -/
theorem C10_presence_only_check (w : World) (fs : FileSystem)
    (dl : String) (so : StatsOptions) (op : Option Path) :
    (∃ m, (validate_tfexamples_in_tfrecord w fs dl so op).1 =
      Except.error (ValidationError.valueError m)) ↔ so.schema = none := by
  constructor
  · rintro ⟨m, hm⟩
    unfold validate_tfexamples_in_tfrecord at hm
    cases hsch : so.schema with
    | none => rfl
    | some sch =>
        rw [hsch] at hm
        dsimp only at hm
        exfalso
        cases hp : runPipeline w dl so (resolveOutputPath fs op).1
            (ensureOutputDir (resolveOutputPath fs op).2
              (dirname (resolveOutputPath fs op).1)) with
        | error e =>
            rw [hp] at hm
            simp at hm
        | ok fs3 =>
            rw [hp] at hm
            dsimp only at hm
            cases hl : load_statistics fs3 (resolveOutputPath fs op).1 with
            | error e => rw [hl] at hm; simp at hm
            | ok s => rw [hl] at hm; simp at hm
  · intro hs
    unfold validate_tfexamples_in_tfrecord
    rw [hs]
    exact ⟨schemaErrMsg, rfl⟩

/-- Witness for C10: at a concrete absent-schema configuration the
equivalence yields the absence of the schema from the concrete raised
error. -/
theorem C10_presence_only_check_witness : soAbsent.schema = none :=
  (C10_presence_only_check okWorld fs0 "data" soAbsent none).mp
    ⟨schemaErrMsg, by decide⟩

end ValidationLib
